import Mathlib

/-!
Verification of `scripts/01_gee_export_aod.py`: a script that submits one
Google Earth Engine (GEE) export task per year, each computing the annual
mean of the quality-masked `Optical_Depth_055` band of the
`MODIS/061/MCD19A2_GRANULES` collection over the United States boundary.

The script is shallowly embedded: the per-pixel QA mask becomes a Boolean
function on `Nat`, the EE expression chain built in the year loop becomes a
small expression AST with a denotational evaluator over an environment of
concrete images, the export calls become a list of task records, and the
authentication `try/except` becomes an explicit control-flow function.
-/

/-- Calendar dates, as written in the script's `f'{year}-01-01'` /
`f'{year}-12-31'` strings. -/
structure Date where
  year : Nat
  month : Nat
  day : Nat
deriving DecidableEq, Repr

/-- Chronological key of a date (lexicographic on year, month, day). -/
def dateKey (d : Date) : Nat :=
  d.year * 10000 + d.month * 100 + d.day

/-- A geometry, identified by the table it was sourced from and the country
filter applied, mirroring
`ee.FeatureCollection("USDOS/LSIB_SIMPLE/2017").filter(ee.Filter.eq('country_na', 'United States')).geometry()`. -/
structure Geometry where
  sourceTable : String
  countryName : String
deriving DecidableEq, Repr

/-- Pixel coordinates. -/
abbrev Pixel := Int × Int

/-- A remote image: acquisition date, the geometries it intersects, the
`AOD_QA` band (packed integer quality flags), the other bands by name
(rational-valued), and the per-pixel validity mask. -/
structure Image where
  date : Date
  regions : List Geometry
  qa : Pixel → Nat
  bands : String → Pixel → ℚ
  valid : Pixel → Bool

/-- The study-area boundary, line 23 of the script: sourced once, before the
year loop. -/
def usa : Geometry :=
  { sourceTable := "USDOS/LSIB_SIMPLE/2017", countryName := "United States" }

/-- Constant `collection_id = 'MODIS/061/MCD19A2_GRANULES'` (line 24). -/
def collection_id : String := "MODIS/061/MCD19A2_GRANULES"

/-- Constant `aod_band = 'Optical_Depth_055'` (line 25). -/
def aod_band : String := "Optical_Depth_055"

/-- Constant `scale_factor = 0.001` (line 26), as the exact rational it denotes. -/
def scale_factor : ℚ := 1 / 1000

/-- Constant `export_scale = 1000` (line 27). -/
def export_scale : Nat := 1000

/-- Condition 1 of `maskAOD`: `qa.bitwiseAnd(7).eq(1)` (line 35). -/
def cloudMask (q : Nat) : Bool := (q &&& 7) == 1

/-- Condition 2 of `maskAOD`: `qa.rightShift(3).bitwiseAnd(3).eq(0)` (line 38). -/
def landMask (q : Nat) : Bool := ((q >>> 3) &&& 3) == 0

/-- Condition 3 of `maskAOD`: `qa.rightShift(8).bitwiseAnd(15).eq(0)` (line 41). -/
def qualityMask (q : Nat) : Bool := ((q >>> 8) &&& 15) == 0

/-- Combination `finalMask = cloudMask.And(landMask).And(qualityMask)` (line 44), as the
per-pixel Boolean predicate on the packed QA value. -/
def finalMask (q : Nat) : Bool := cloudMask q && landMask q && qualityMask q

/-- Function `maskAOD` (lines 30-46): select the `AOD_QA` band, compute the combined
mask, and `updateMask` the image with it (EE's `updateMask` conjoins the new
mask with the image's current mask). -/
def maskAOD (im : Image) : Image :=
  { im with valid := fun p => im.valid p && finalMask (im.qa p) }

/-- C1: for every packed quality value `q`, `finalMask` (the per-pixel
predicate computed by `maskAOD`) is true iff `(q &&& 7) = 1` and
`((q >>> 3) &&& 3) = 0` and `((q >>> 8) &&& 15) = 0`; moreover any `q` with
bit 3 set is rejected. -/
theorem maskAOD_iff (q : Nat) :
    (finalMask q = true ↔
      (q &&& 7 = 1 ∧ (q >>> 3) &&& 3 = 0 ∧ (q >>> 8) &&& 15 = 0)) ∧
    (Nat.testBit q 3 = true → finalMask q = false) := by
  constructor
  · simp [finalMask, cloudMask, landMask, qualityMask, Bool.and_eq_true,
      beq_iff_eq, and_assoc]
  · intro h
    have hland : landMask q = false := by
      cases hlm : landMask q with
      | false => rfl
      | true =>
        exfalso
        have h30 : (q >>> 3) &&& 3 = 0 := by
          simpa [landMask] using hlm
        have h31 : (3 : Nat) &&& 1 = 1 := by decide
        have step : (q >>> 3) &&& 1 = ((q >>> 3) &&& 3) &&& 1 := by
          rw [Nat.and_assoc, h31]
        have h10 : (q >>> 3) &&& 1 = 0 := by
          rw [step, h30, Nat.zero_and]
        have hcomm : 1 &&& (q >>> 3) = (q >>> 3) &&& 1 := Nat.and_comm _ _
        have hb : Nat.testBit q 3 = false := by
          simp [Nat.testBit, hcomm, h10]
        rw [hb] at h
        exact Bool.false_ne_true h
    simp [finalMask, hland]

/-- Witness for C1 at concrete inputs: `q = 9` has bit 3 set and is rejected;
`q = 1` is accepted; `q = 0` is rejected. -/
theorem maskAOD_iff_witness :
    Nat.testBit 9 3 = true ∧ finalMask 9 = false ∧
      finalMask 1 = true ∧ finalMask 0 = false :=
  ⟨by decide, (maskAOD_iff 9).2 (by decide), by decide, by decide⟩

/-- Assignment `start_date = f'{year}-01-01'` (line 57). -/
def startDate (y : Nat) : Date := { year := y, month := 1, day := 1 }

/-- Assignment `end_date = f'{year}-12-31'` (line 58). -/
def endDate (y : Nat) : Date := { year := y, month := 12, day := 31 }

/-- The expression built by the method chain
`ee.ImageCollection(collection_id).filterDate(...).filterBounds(...).map(maskAOD)`
(lines 61-64): a collection-valued EE expression. -/
inductive CollExpr where
  | collection (id : String)
  | filterDate (c : CollExpr) (d1 d2 : Date)
  | filterBounds (c : CollExpr) (g : Geometry)
  | mapMask (c : CollExpr)
deriving DecidableEq, Repr

/-- Step `.select(aod_band)` (line 65): a single-band collection expression. -/
inductive BandCollExpr where
  | select (c : CollExpr) (band : String)
deriving DecidableEq, Repr

/-- Steps `.mean().multiply(scale_factor)` and the later `.clip(usa)`
(lines 66-67 and 71): an image-valued EE expression. -/
inductive ImgExpr where
  | mean (c : BandCollExpr)
  | multiply (e : ImgExpr) (k : ℚ)
  | clip (e : ImgExpr) (g : Geometry)
deriving DecidableEq, Repr

/-- The remote environment the deferred expressions are evaluated against:
the contents of each named image collection, and which pixels each geometry
covers (used by `clip`). -/
structure Env where
  catalog : String → List Image
  covers : Geometry → Pixel → Bool

/-- Evaluate a collection expression to its list of images.
`filterDate` keeps images whose timestamp `t` satisfies `start ≤ t < end`:
per the Earth Engine API reference, `ee.ImageCollection.filterDate(start, end)`
treats `start` as inclusive and `end` as EXCLUSIVE. `filterBounds` keeps
images whose footprint intersects the geometry. `map(maskAOD)` applies the
QA mask to every image. -/
def evalColl (env : Env) : CollExpr → List Image
  | .collection id => env.catalog id
  | .filterDate c d1 d2 =>
      (evalColl env c).filter fun im =>
        Nat.ble (dateKey d1) (dateKey im.date) &&
          Nat.blt (dateKey im.date) (dateKey d2)
  | .filterBounds c g => (evalColl env c).filter fun im => im.regions.contains g
  | .mapMask c => (evalColl env c).map maskAOD

/-- Evaluate `.select(band)`: each image becomes its named band as a partial
pixel function, `none` where the image's mask invalidates the pixel. -/
def evalBand (env : Env) : BandCollExpr → List (Pixel → Option ℚ)
  | .select c band =>
      (evalColl env c).map fun im p =>
        if im.valid p then some (im.bands band p) else none

/-- Mean of a list of rationals, `none` when the list is empty (a pixel with
no unmasked contributions stays masked in the EE mean reducer). -/
def meanList (l : List ℚ) : Option ℚ :=
  if l.isEmpty then none else some (l.sum / l.length)

/-- Evaluate an image expression at a pixel. `mean` averages the unmasked
contributions at the pixel across the collection; `multiply` scales the
value; `clip` masks pixels outside the geometry. -/
def evalImg (env : Env) : ImgExpr → Pixel → Option ℚ
  | .mean c, p => meanList ((evalBand env c).filterMap fun f => f p)
  | .multiply e k, p => (evalImg env e p).map fun v => v * k
  | .clip e g, p => if env.covers g p then evalImg env e p else none

/-- Expression `annual_mean_aod` (lines 61-67): filter the collection to the year's date
window and the boundary, mask every image, select the AOD band, take the
mean, and multiply by the scale factor. -/
def annual_mean_aod (y : Nat) : ImgExpr :=
  .multiply
    (.mean (.select
      (.mapMask (.filterBounds
        (.filterDate (.collection collection_id) (startDate y) (endDate y))
        usa))
      aod_band))
    scale_factor

/-- Membership of a date in the year-`y` filter window actually used by the
script: `startDate y ≤ d < endDate y` (the `filterDate` semantics
instantiated at the script's two date strings). -/
def inWindow (y : Nat) (d : Date) : Bool :=
  Nat.ble (dateKey (startDate y)) (dateKey d) &&
    Nat.blt (dateKey d) (dateKey (endDate y))

/-- C2 (counterexample evaluation): the script's year-2020 date window keeps
January 1 and December 30 but EXCLUDES December 31 of 2020 (because
`filterDate`'s end bound is exclusive and the script passes `2020-12-31`),
while correctly excluding every day of 2021. -/
theorem filterDate_window_2020 :
    inWindow 2020 { year := 2020, month := 1, day := 1 } = true ∧
    inWindow 2020 { year := 2020, month := 12, day := 30 } = true ∧
    inWindow 2020 { year := 2020, month := 12, day := 31 } = false ∧
    inWindow 2020 { year := 2021, month := 1, day := 1 } = false := by
  decide

/-- C2 (amended general statement): for every year `y`, the window used by
the script contains exactly the dates from January 1 up to but not including
December 31 of year `y`: a date of year `y` is in the window iff it is
chronologically before December 31, and no date of a later year (in
particular of year `y + 1`) is in the window. -/
theorem filterDate_window_spec (y : Nat) (d : Date) :
    (d.year = y → (inWindow y d = true ↔
      dateKey d < dateKey (endDate y) ∧ dateKey (startDate y) ≤ dateKey d)) ∧
    (d.year > y → inWindow y d = false) := by
  constructor
  · intro _
    unfold inWindow
    rw [Bool.and_eq_true, Nat.ble_eq, Nat.blt_eq]
    constructor
    · rintro ⟨h1, h2⟩; exact ⟨h2, h1⟩
    · rintro ⟨h1, h2⟩; exact ⟨h2, h1⟩
  · intro hy
    unfold inWindow
    have : ¬ dateKey d < dateKey (endDate y) := by
      unfold dateKey endDate
      simp only [not_lt]
      have : y * 10000 + 1300 ≤ d.year * 10000 := by
        have h1 : y + 1 ≤ d.year := hy
        nlinarith
      omega
    rcases Bool.eq_false_or_eq_true (Nat.blt (dateKey d) (dateKey (endDate y)))
      with ht | hf
    · exact absurd (Nat.blt_eq ▸ ht) this
    · simp [hf]

/-- Witness for C2's amended statement at year 2020: December 30 is inside
the window, December 31 is not, and January 1 of 2021 is not. -/
theorem filterDate_window_spec_witness :
    (inWindow 2020 { year := 2020, month := 12, day := 30 } = true ↔
      dateKey { year := 2020, month := 12, day := 30 } < dateKey (endDate 2020) ∧
        dateKey (startDate 2020) ≤ dateKey { year := 2020, month := 12, day := 30 }) ∧
    inWindow 2020 { year := 2021, month := 3, day := 15 } = false :=
  ⟨(filterDate_window_spec 2020 { year := 2020, month := 12, day := 30 }).1 rfl,
   (filterDate_window_spec 2020 { year := 2021, month := 3, day := 15 }).2 (by decide)⟩

/-- Decimal digits of `n`, most significant first: the digit string that
Python's f-string interpolation prints for a nonnegative integer. -/
def natToDigits (n : Nat) : List Nat :=
  if n < 10 then [n] else natToDigits (n / 10) ++ [n % 10]
termination_by n
decreasing_by
  exact Nat.div_lt_self (by omega) (by omega)

/-- Reading the digit list back with `fold s d => s * 10 + d` recovers `n`
(generalised over the accumulator). -/
theorem natToDigits_foldl (n : Nat) :
    ∀ a : Nat, (natToDigits n).foldl (fun s d => s * 10 + d) a =
      a * 10 ^ (natToDigits n).length + n := by
  induction n using Nat.strong_induction_on with
  | _ n ih =>
    intro a
    rw [natToDigits]
    by_cases h : n < 10
    · simp [h]
    · have hlt : n / 10 < n := Nat.div_lt_self (by omega) (by omega)
      simp only [h, if_false, List.foldl_append, List.length_append,
        List.foldl_cons, List.foldl_nil, List.length_cons, List.length_nil]
      rw [ih (n / 10) hlt a]
      have hmod : 10 * (n / 10) + n % 10 = n := Nat.div_add_mod n 10
      ring_nf
      omega

/-- The digit list determines the number. -/
theorem natToDigits_inj (m n : Nat) (h : natToDigits m = natToDigits n) :
    m = n := by
  have hm := natToDigits_foldl m 0
  have hn := natToDigits_foldl n 0
  rw [h] at hm
  rw [hm] at hn
  omega

/-- Every decimal digit produced is below 10. -/
theorem natToDigits_lt_ten (n : Nat) : ∀ d ∈ natToDigits n, d < 10 := by
  induction n using Nat.strong_induction_on with
  | _ n ih =>
    intro d hd
    rw [natToDigits] at hd
    by_cases h : n < 10
    · simp [h] at hd
      omega
    · have hlt : n / 10 < n := Nat.div_lt_self (by omega) (by omega)
      simp only [h, if_false, List.mem_append, List.mem_singleton] at hd
      rcases hd with hd | hd
      · exact ih (n / 10) hlt d hd
      · subst hd
        exact Nat.mod_lt n (by omega)

/-- ASCII character of a decimal digit. -/
def digitChar (d : Nat) : Char := Char.ofNat (48 + d)

/-- Function `digitChar` is injective below 10. -/
theorem digitChar_inj :
    ∀ d1, d1 < 10 → ∀ d2, d2 < 10 → digitChar d1 = digitChar d2 → d1 = d2 := by
  decide

/-- The decimal rendering of a nonnegative integer, as Python's `f'{year}'`
interpolation prints it. -/
def natRepr (n : Nat) : String := { data := (natToDigits n).map digitChar }

/-- Mapping `digitChar` over digit lists (all entries below 10) is injective. -/
theorem map_digitChar_inj :
    ∀ l1 l2 : List Nat, (∀ d ∈ l1, d < 10) → (∀ d ∈ l2, d < 10) →
      l1.map digitChar = l2.map digitChar → l1 = l2 := by
  intro l1
  induction l1 with
  | nil =>
    intro l2 _ _ h
    cases l2 with
    | nil => rfl
    | cons b t2 => simp at h
  | cons a t ih =>
    intro l2 h1 h2 h
    cases l2 with
    | nil => simp at h
    | cons b t2 =>
      simp only [List.map_cons, List.cons.injEq] at h
      have ha : a < 10 := h1 a (List.mem_cons_self a t)
      have hb : b < 10 := h2 b (List.mem_cons_self b t2)
      have hab : a = b := digitChar_inj a ha b hb h.1
      have ht : t = t2 := by
        refine ih t2 ?_ ?_ h.2
        · intro d hd; exact h1 d (List.mem_cons_of_mem a hd)
        · intro d hd; exact h2 d (List.mem_cons_of_mem b hd)
      rw [hab, ht]

/-- Rendering `natRepr` is injective: distinct years render to distinct strings. -/
theorem natRepr_inj (m n : Nat) (h : natRepr m = natRepr n) : m = n := by
  have hdata : (natToDigits m).map digitChar = (natToDigits n).map digitChar :=
    congrArg String.data h
  exact natToDigits_inj m n
    (map_digitChar_inj (natToDigits m) (natToDigits n)
      (natToDigits_lt_ten m) (natToDigits_lt_ten n) hdata)

/-- The argument record of `ee.batch.Export.image.toDrive` (lines 70-78). -/
structure ExportTask where
  image : ImgExpr
  description : String
  folder : String
  fileNamePrefix : String
  scale : Nat
  crs : String
  maxPixels : Nat
deriving DecidableEq, Repr

/-- The export task the loop body constructs for a given year (lines 70-78):
the composite clipped to the boundary, description
`f'Annual_Mean_AOD_{year}_USA'`, folder `'GEE_Exports'`, file name prefix
`f'AOD_{year}_USA'`, scale `export_scale`, CRS `'EPSG:4326'`, and
`maxPixels=1e13`. -/
def taskFor (y : Nat) : ExportTask :=
  { image := .clip (annual_mean_aod y) usa
    description := "Annual_Mean_AOD_" ++ natRepr y ++ "_USA"
    folder := "GEE_Exports"
    fileNamePrefix := "AOD_" ++ natRepr y ++ "_USA"
    scale := export_scale
    crs := "EPSG:4326"
    maxPixels := 10 ^ 13 }

/-- Loop range `range(start_year, end_year + 1)` (line 52): the years the loop visits,
in order. -/
def yearsRange (s e : Nat) : List Nat := List.range' s (e + 1 - s)

/-- The list of export tasks the script constructs and starts, one per loop
iteration (lines 52-81). -/
def tasks (s e : Nat) : List ExportTask := (yearsRange s e).map taskFor

/-- Appending strings appends their character data. -/
theorem string_data_append (s t : String) : (s ++ t).data = s.data ++ t.data := by
  cases s
  cases t
  rfl

/-- Wrapping the decimal rendering of a year between two fixed strings is
injective in the year. -/
theorem wrap_natRepr_inj (a b : String) (y1 y2 : Nat)
    (h : a ++ natRepr y1 ++ b = a ++ natRepr y2 ++ b) : y1 = y2 := by
  have hdata : (a.data ++ (natRepr y1).data) ++ b.data =
      (a.data ++ (natRepr y2).data) ++ b.data := by
    have h1 := congrArg String.data h
    rwa [string_data_append, string_data_append, string_data_append,
      string_data_append] at h1
  have h2 : a.data ++ (natRepr y1).data = a.data ++ (natRepr y2).data :=
    List.append_cancel_right hdata
  have h3 : (natRepr y1).data = (natRepr y2).data := List.append_cancel_left h2
  exact natRepr_inj y1 y2 (by
    unfold natRepr
    exact congrArg String.mk h3)

/-- C3: for `start_year ≤ end_year` the loop constructs exactly
`end_year - start_year + 1` tasks (in particular exactly one when the two
coincide), each task carries its year inside both its description and its
file name prefix, and the descriptions and file name prefixes are pairwise
distinct across the tasks. -/
theorem tasks_one_per_year (s e : Nat) (h : s ≤ e) :
    (tasks s e).length = e - s + 1 ∧
    (∀ t ∈ tasks s e, ∃ y, s ≤ y ∧ y ≤ e ∧
      t.description = "Annual_Mean_AOD_" ++ natRepr y ++ "_USA" ∧
      t.fileNamePrefix = "AOD_" ++ natRepr y ++ "_USA") ∧
    (tasks s e).Pairwise (fun t1 t2 =>
      t1.description ≠ t2.description ∧
      t1.fileNamePrefix ≠ t2.fileNamePrefix) := by
  refine ⟨?_, ?_, ?_⟩
  · simp only [tasks, yearsRange, List.length_map, List.length_range']
    omega
  · intro t ht
    simp only [tasks, yearsRange, List.mem_map, List.mem_range'_1] at ht
    obtain ⟨y, ⟨hy1, hy2⟩, rfl⟩ := ht
    exact ⟨y, hy1, by omega, rfl, rfl⟩
  · have hp : (yearsRange s e).Pairwise (· < ·) := by
      simpa [yearsRange] using List.pairwise_lt_range' s (e + 1 - s)
    refine List.Pairwise.map taskFor ?_ hp
    intro y1 y2 hlt
    have hne : y1 ≠ y2 := Nat.ne_of_lt hlt
    constructor
    · intro hd
      exact hne (wrap_natRepr_inj "Annual_Mean_AOD_" "_USA" y1 y2 hd)
    · intro hd
      exact hne (wrap_natRepr_inj "AOD_" "_USA" y1 y2 hd)

/-- Witness for C3 on the spec's end-to-end scenario `(2020, 2021)`. -/
theorem tasks_one_per_year_witness :
    2020 ≤ 2021 ∧
    ((tasks 2020 2021).length = 2021 - 2020 + 1 ∧
      (∀ t ∈ tasks 2020 2021, ∃ y, 2020 ≤ y ∧ y ≤ 2021 ∧
        t.description = "Annual_Mean_AOD_" ++ natRepr y ++ "_USA" ∧
        t.fileNamePrefix = "AOD_" ++ natRepr y ++ "_USA") ∧
      (tasks 2020 2021).Pairwise (fun t1 t2 =>
        t1.description ≠ t2.description ∧
        t1.fileNamePrefix ≠ t2.fileNamePrefix)) :=
  ⟨by decide, tasks_one_per_year 2020 2021 (by decide)⟩

/-- A `filterMap` whose function is a guarded `some` is a filter followed by
a map. -/
theorem filterMap_guard {α β : Type} (pred : α → Bool) (f : α → β) :
    ∀ l : List α,
      (l.filterMap fun a => if pred a then some (f a) else none) =
        (l.filter pred).map f := by
  intro l
  induction l with
  | nil => rfl
  | cons x t ih =>
    cases hx : pred x with
    | true => simp [List.filterMap_cons, List.filter_cons, hx, ih]
    | false => simp [List.filterMap_cons, List.filter_cons, hx, ih]

/-- The images of the year-`y` collection passing all four conditions the
pipeline imposes at pixel `p`: date window, boundary intersection, the
image's own mask, and the QA mask. This is the spec's description of which
contributions enter the annual mean. -/
def passing (env : Env) (y : Nat) (p : Pixel) : List Image :=
  (env.catalog collection_id).filter fun im =>
    (Nat.ble (dateKey (startDate y)) (dateKey im.date) &&
        Nat.blt (dateKey im.date) (dateKey (endDate y))) &&
      im.regions.contains usa &&
      im.valid p && finalMask (im.qa p)

/-- The raw stored AOD values entering the year-`y` mean at pixel `p`. -/
def passingValues (env : Env) (y : Nat) (p : Pixel) : List ℚ :=
  (passing env y p).map fun im => im.bands aod_band p

/-- Spec-side composite, following the spec's words: compute the pixel-wise
mean of the raw stored values of the passing images, then multiply the
result by the scale factor once. -/
def specMeanThenScale (env : Env) (y : Nat) (p : Pixel) : Option ℚ :=
  (meanList (passingValues env y p)).map fun m => m * scale_factor

/-- Denotation of the script's per-year composite: it equals the spec-side
mean-then-scale description. Shared backbone of C4 and C5. -/
theorem eval_annual_eq (env : Env) (y : Nat) (p : Pixel) :
    evalImg env (annual_mean_aod y) p = specMeanThenScale env y p := by
  unfold annual_mean_aod specMeanThenScale passingValues passing
  simp only [evalImg, evalBand, evalColl]
  rw [List.filterMap_map, List.filterMap_map]
  have hcomp :
      ((fun f => f p) ∘ fun (im : Image) q =>
          if im.valid q then some (im.bands aod_band q) else none) ∘ maskAOD =
        fun im : Image =>
          if im.valid p && finalMask (im.qa p) then
            some (im.bands aod_band p)
          else none := by
    funext im
    simp [Function.comp, maskAOD]
  rw [hcomp, filterMap_guard]
  simp only [List.filter_filter]
  refine congrArg _ (congrArg _ (congrArg _ (List.filter_congr ?_)))
  intro a _
  cases ha : a.valid p <;> cases hb : finalMask (a.qa p) <;>
    cases hc : a.regions.contains usa <;>
    cases hd : Nat.ble (dateKey (startDate y)) (dateKey a.date) <;>
    cases he : Nat.blt (dateKey a.date) (dateKey (endDate y)) <;>
    simp [ha, hb, hc, hd, he]

/-- C4: in the per-year composite, the pixel-wise mean is computed on the
raw stored values (of the images passing the filters and masks) and the
scale factor multiplies the result exactly once, after the mean — never
before it, never twice. -/
theorem scale_applied_once_after_mean (env : Env) (y : Nat) (p : Pixel) :
    evalImg env (annual_mean_aod y) p =
      (meanList (passingValues env y p)).map fun m => m * scale_factor :=
  eval_annual_eq env y p

/-- Overwrite the AOD band of an image at one pixel. -/
def setAOD (im : Image) (p : Pixel) (v : ℚ) : Image :=
  { im with bands := fun b q => if b = aod_band ∧ q = p then v else im.bands b q }

/-- The environment with the AOD value at pixel `p` of the `i`-th image of
the source collection replaced by `v`. -/
def withAODAt (env : Env) (i : Nat) (p : Pixel) (v : ℚ) : Env :=
  { env with
    catalog := fun cid =>
      if cid = collection_id then
        match (env.catalog cid)[i]? with
        | some im => (env.catalog cid).set i (setAOD im p v)
        | none => env.catalog cid
      else env.catalog cid }

/-- Replacing a list entry that fails the filter predicate by another
failing entry leaves the filtered list unchanged. -/
theorem filter_set_of_false {α : Type} (pred : α → Bool) :
    ∀ (l : List α) (i : Nat) (a' : α),
      (∀ a, l[i]? = some a → pred a = false) → pred a' = false →
      (l.set i a').filter pred = l.filter pred := by
  intro l
  induction l with
  | nil => intro i a' _ _; rfl
  | cons x t ih =>
    intro i a' hl ha'
    cases i with
    | zero =>
      have hx : pred x = false := hl x (by simp)
      simp [List.filter_cons, hx, ha']
    | succ n =>
      have hl' : ∀ a, t[n]? = some a → pred a = false := by
        intro a hna
        exact hl a (by simpa using hna)
      cases hx : pred x <;>
        simp [List.filter_cons, hx, ih n a' hl' ha']

/-- C5: the QA mask acts on every image before the temporal mean, never
after aggregation — semantically, the AOD value of any image whose QA mask
fails at a pixel never influences the composite: overwriting that value
arbitrarily leaves the year's composite unchanged at that pixel. -/
theorem mask_before_mean (env : Env) (y : Nat) (p : Pixel) (i : Nat) (v : ℚ)
    (im : Image) (hget : (env.catalog collection_id)[i]? = some im)
    (hmask : finalMask (im.qa p) = false) :
    evalImg (withAODAt env i p v) (annual_mean_aod y) p =
      evalImg env (annual_mean_aod y) p := by
  rw [eval_annual_eq, eval_annual_eq]
  unfold specMeanThenScale passingValues passing
  have hcat : (withAODAt env i p v).catalog collection_id =
      (env.catalog collection_id).set i (setAOD im p v) := by
    unfold withAODAt
    simp [hget]
  rw [hcat]
  have h1 : ∀ a, (env.catalog collection_id)[i]? = some a →
      ((Nat.ble (dateKey (startDate y)) (dateKey a.date) &&
          Nat.blt (dateKey a.date) (dateKey (endDate y))) &&
        a.regions.contains usa &&
        a.valid p && finalMask (a.qa p)) = false := by
    intro a hia
    rw [hget] at hia
    cases hia
    simp [hmask]
  have h2 :
      ((Nat.ble (dateKey (startDate y)) (dateKey (setAOD im p v).date) &&
          Nat.blt (dateKey (setAOD im p v).date) (dateKey (endDate y))) &&
        (setAOD im p v).regions.contains usa &&
        (setAOD im p v).valid p && finalMask ((setAOD im p v).qa p)) = false := by
    simp [setAOD, hmask]
  rw [filter_set_of_false _ (env.catalog collection_id) i (setAOD im p v) h1 h2]

/-- A concrete test image whose QA value fails the mask everywhere. -/
def imgBad : Image :=
  { date := { year := 2020, month := 6, day := 1 }
    regions := [usa]
    qa := fun _ => 0
    bands := fun _ _ => 7
    valid := fun _ => true }

/-- A concrete test image whose QA value passes the mask everywhere. -/
def imgGood : Image :=
  { date := { year := 2020, month := 7, day := 15 }
    regions := [usa]
    qa := fun _ => 1
    bands := fun _ _ => 3
    valid := fun _ => true }

/-- A concrete test environment holding the two test images. -/
def testEnv : Env :=
  { catalog := fun _ => [imgBad, imgGood]
    covers := fun _ _ => true }

/-- Witness for C5: overwriting the masked-out image's AOD value with 999
does not change the 2020 composite at pixel `(0, 0)`. -/
theorem mask_before_mean_witness :
    (testEnv.catalog collection_id)[0]? = some imgBad ∧
    finalMask (imgBad.qa (0, 0)) = false ∧
    evalImg (withAODAt testEnv 0 (0, 0) 999) (annual_mean_aod 2020) (0, 0) =
      evalImg testEnv (annual_mean_aod 2020) (0, 0) :=
  ⟨rfl, by decide,
    mask_before_mean testEnv 2020 (0, 0) 0 999 imgBad rfl (by decide)⟩

/-- Success or failure of one call into the remote client. -/
inductive Outcome where
  | ok
  | err
deriving DecidableEq, Repr

/-- Observable trace of the authentication block: how many times
`ee.Initialize()` and `ee.Authenticate()` were called, and whether the
script continues (`ok`) or an exception propagates uncaught (`err`). -/
structure InitTrace where
  initCalls : Nat
  authCalls : Nat
  result : Outcome
deriving DecidableEq, Repr

/-- The `try: ee.Initialize() / except: ee.Authenticate(); ee.Initialize()`
block (lines 16-20), parameterised by the outcomes of the first
initialization, of the interactive authentication, and of the retried
initialization. Failures inside the `except` body are not caught by
anything, so they propagate and terminate the script. -/
def initFlow (first auth second : Outcome) : InitTrace :=
  match first with
  | .ok => { initCalls := 1, authCalls := 0, result := .ok }
  | .err =>
    match auth with
    | .err => { initCalls := 1, authCalls := 1, result := .err }
    | .ok =>
      match second with
      | .ok => { initCalls := 2, authCalls := 1, result := .ok }
      | .err => { initCalls := 2, authCalls := 1, result := .err }

/-- C6: a failed first initialization triggers exactly one fallback — one
interactive re-authentication and one retried initialization — a second
failure propagates uncaught, and in every scenario at most two
initializations and at most one authentication ever happen. -/
theorem init_retry_once (f a s : Outcome) :
    (initFlow f a s).initCalls ≤ 2 ∧ (initFlow f a s).authCalls ≤ 1 ∧
    initFlow .err .ok .ok =
      { initCalls := 2, authCalls := 1, result := .ok } ∧
    initFlow .err .ok .err =
      { initCalls := 2, authCalls := 1, result := .err } ∧
    initFlow .ok a s = { initCalls := 1, authCalls := 0, result := .ok } := by
  cases f <;> cases a <;> cases s <;> decide

/-- C7: every submitted task, for every configured range, uses the fixed
export scale, the fixed geographic CRS `EPSG:4326`, the folder
`GEE_Exports`, the explicit pixel ceiling `10^13`, a file name prefix of the
form `AOD_<year>_USA` for its year, and an image clipped to the boundary. -/
theorem task_params_fixed (s e : Nat) (t : ExportTask) (ht : t ∈ tasks s e) :
    t.scale = export_scale ∧ t.crs = "EPSG:4326" ∧
    t.folder = "GEE_Exports" ∧ t.maxPixels = 10 ^ 13 ∧
    ∃ y, s ≤ y ∧ y ≤ e ∧
      t.description = "Annual_Mean_AOD_" ++ natRepr y ++ "_USA" ∧
      t.fileNamePrefix = "AOD_" ++ natRepr y ++ "_USA" ∧
      t.image = .clip (annual_mean_aod y) usa := by
  simp only [tasks, yearsRange, List.mem_map, List.mem_range'_1] at ht
  obtain ⟨y, ⟨h1, h2⟩, rfl⟩ := ht
  exact ⟨rfl, rfl, rfl, rfl, y, h1, by omega, rfl, rfl, rfl⟩

/-- Witness for C7 at the first task of the range `(2020, 2021)`. -/
theorem task_params_fixed_witness :
    taskFor 2020 ∈ tasks 2020 2021 ∧
    ((taskFor 2020).scale = export_scale ∧ (taskFor 2020).crs = "EPSG:4326" ∧
      (taskFor 2020).folder = "GEE_Exports" ∧
      (taskFor 2020).maxPixels = 10 ^ 13 ∧
      ∃ y, 2020 ≤ y ∧ y ≤ 2021 ∧
        ExportTask.description (taskFor 2020) = "Annual_Mean_AOD_" ++ natRepr y ++ "_USA" ∧
        ExportTask.fileNamePrefix (taskFor 2020) = "AOD_" ++ natRepr y ++ "_USA" ∧
        (taskFor 2020).image = .clip (annual_mean_aod y) usa) :=
  ⟨List.mem_cons_self _ _,
    task_params_fixed 2020 2021 (taskFor 2020) (List.mem_cons_self _ _)⟩

/-- Geometries used by `filterBounds` nodes of a collection expression. -/
def boundsGeoms : CollExpr → List Geometry
  | .collection _ => []
  | .filterDate c _ _ => boundsGeoms c
  | .filterBounds c g => g :: boundsGeoms c
  | .mapMask c => boundsGeoms c

/-- Geometries used by `filterBounds` nodes under a `select`. -/
def boundsGeomsB : BandCollExpr → List Geometry
  | .select c _ => boundsGeoms c

/-- Geometries used by `filterBounds` nodes of an image expression. -/
def boundsGeomsI : ImgExpr → List Geometry
  | .mean c => boundsGeomsB c
  | .multiply e _ => boundsGeomsI e
  | .clip e _ => boundsGeomsI e

/-- Geometries used by `clip` nodes of an image expression. -/
def clipGeoms : ImgExpr → List Geometry
  | .mean _ => []
  | .multiply e _ => clipGeoms e
  | .clip e g => g :: clipGeoms e

/-- C8: in every iteration of the year loop, the one bounds filter and the
one clip of the submitted image both use exactly the single global boundary
value `usa`, sourced once before the loop — the same value in every task of
every configured range. -/
theorem boundary_single_source (s e : Nat) (t : ExportTask) (ht : t ∈ tasks s e) :
    boundsGeomsI t.image = [usa] ∧ clipGeoms t.image = [usa] := by
  simp only [tasks, List.mem_map] at ht
  obtain ⟨y, _, rfl⟩ := ht
  exact ⟨rfl, rfl⟩

/-- Witness for C8 at the first task of the script's configured range
`(2015, 2024)`. -/
theorem boundary_single_source_witness :
    taskFor 2015 ∈ tasks 2015 2024 ∧
    (boundsGeomsI (taskFor 2015).image = [usa] ∧
      clipGeoms (taskFor 2015).image = [usa]) :=
  ⟨List.mem_cons_self _ _,
    boundary_single_source 2015 2024 (taskFor 2015) (List.mem_cons_self _ _)⟩

/-- C9: the mask is a pure, stateless function of the packed quality value
alone: whenever two images at two pixels carry the same QA value — in any
two images, years or runs — the mask factor `maskAOD` multiplies into the
image mask is the same, namely `finalMask` of that QA value. -/
theorem maskAOD_pure (im1 im2 : Image) (p1 p2 : Pixel)
    (h : im1.qa p1 = im2.qa p2) :
    (maskAOD im1).valid p1 = (im1.valid p1 && finalMask (im2.qa p2)) ∧
    finalMask (im1.qa p1) = finalMask (im2.qa p2) := by
  constructor
  · show (im1.valid p1 && finalMask (im1.qa p1)) =
      (im1.valid p1 && finalMask (im2.qa p2))
    rw [h]
  · rw [h]

/-- Witness for C9: the same image (same QA value) at two different pixels
yields the same mask factor. -/
theorem maskAOD_pure_witness :
    imgGood.qa (0, 0) = imgGood.qa (5, 7) ∧
    ((maskAOD imgGood).valid (0, 0) =
        (imgGood.valid (0, 0) && finalMask (imgGood.qa (5, 7))) ∧
      finalMask (imgGood.qa (0, 0)) = finalMask (imgGood.qa (5, 7))) :=
  ⟨rfl, maskAOD_pure imgGood imgGood (0, 0) (5, 7) rfl⟩

/-- Banner `print("--- Script Start: ... ---")` (line 13). -/
def startLine : String :=
  "--- Script Start: Exporting yearly AOD data with verified logic ---"

/-- The first per-iteration progress line (line 54). -/
def submitLine (y : Nat) : String :=
  "Submitting export task for year: " ++ natRepr y ++ "..."

/-- The second per-iteration progress line (line 84); the elapsed-seconds
figure it interpolates is timing-dependent and elided from the model. -/
def doneLine (y : Nat) : String :=
  "  - Task for year " ++ natRepr y ++ " submitted."

/-- The three prints after the loop (lines 86-88). -/
def finalLines : List String :=
  ["--- All export tasks have been submitted. ---",
   "Please go to the Google Earth Engine Code Editor website (code.earthengine.google.com)",
   "and click 'RUN' on the tasks in the 'Tasks' tab on the right-hand side."]

/-- Everything the script prints for a configured `(start_year, end_year)`:
the start line, two lines per visited year, then the final instructions. -/
def scriptLines (s e : Nat) : List String :=
  startLine :: (((yearsRange s e).map fun y => [submitLine y, doneLine y]).flatten
    ++ finalLines)

/-- C10: when `start_year > end_year` the loop body never runs — no task is
constructed — yet the script still prints the final instructional message
and terminates normally: its output is exactly the start line followed by
the final lines, the last of which is the instructional message. -/
theorem empty_range_no_tasks (s e : Nat) (h : e < s) :
    tasks s e = [] ∧ scriptLines s e = startLine :: finalLines ∧
    (scriptLines s e).getLast? =
      some "and click 'RUN' on the tasks in the 'Tasks' tab on the right-hand side." := by
  have hz : e + 1 - s = 0 := by omega
  have h2 : scriptLines s e = startLine :: finalLines := by
    simp [scriptLines, yearsRange, hz]
  refine ⟨?_, h2, ?_⟩
  · simp [tasks, yearsRange, hz]
  · rw [h2]
    rfl

/-- Witness for C10 at the degenerate configuration `(2025, 2024)`. -/
theorem empty_range_no_tasks_witness :
    2024 < 2025 ∧
    (tasks 2025 2024 = [] ∧ scriptLines 2025 2024 = startLine :: finalLines ∧
      (scriptLines 2025 2024).getLast? =
        some "and click 'RUN' on the tasks in the 'Tasks' tab on the right-hand side.") :=
  ⟨by decide, empty_range_no_tasks 2025 2024 (by decide)⟩
